import Mathlib

set_option maxHeartbeats 1000000

/-!
Verification of the Podfy upload pipeline against its specification.

The definitions below are a shallow embedding of the location-resolution,
file-validation, transaction-upsert and status-finalization logic of the
upload handler. The repository carries several revisions of the handler
file `functions/api/upload.js`; where revisions agree a single definition
is used, where they diverge the newest revision (the one the spec text
matches) is embedded with the suffix `V2` and the older revision without
a suffix. Byte buffers are `List Nat` (byte values), JS numbers that are
only ever tested for finiteness and carried through are `Option Rat`
(`none` = absent / not finite), and the D1 `transactions` table is a map
from `podfy_id` to its stored row.
-/

/-- JS `b.slice(i, i + n)` on a typed array: truncates at the end of the
buffer and never reads out of bounds. -/
def sliceBytes (b : List Nat) (i n : Nat) : List Nat := (b.drop i).take n

/-- ASCII byte lowercasing, as applied by `toLowerCase()` to the decoded
4-byte brand string in `sniffKind` (a 4-character all-ASCII result is the
only way the decoded, lowercased slice can match an ASCII brand). -/
def lowerByte (x : Nat) : Nat := if 65 ≤ x ∧ x ≤ 90 then x + 32 else x

/-- The HEIF-family brand strings of `sniffKind`, as ASCII byte lists:
"heic", "heif", "mif1", "hevc", "hevx", "heis", "hevm". -/
def heifBrandBytes : List (List Nat) :=
  [[0x68, 0x65, 0x69, 0x63], [0x68, 0x65, 0x69, 0x66], [0x6d, 0x69, 0x66, 0x31],
   [0x68, 0x65, 0x76, 0x63], [0x68, 0x65, 0x76, 0x78], [0x68, 0x65, 0x69, 0x73],
   [0x68, 0x65, 0x76, 0x6d]]

/-- Embedding of `sniffKind` from `functions/api/upload.js` (textually the
same function in all revisions of the handler): magic-byte sniffing of the
leading bytes. The hex-string comparisons of the source are modelled as
byte-list comparisons (a truncated slice yields a shorter hex string, which
the source likewise rejects), and the UTF-8 `TextDecoder` comparisons
against 4-character ASCII strings as byte-list comparisons (only the exact
ASCII bytes decode to those strings). -/
def sniffKind (bytes : List Nat) : String :=
  if sliceBytes bytes 0 4 = [0x25, 0x50, 0x44, 0x46] then "pdf"
  else if sliceBytes bytes 0 3 = [0xff, 0xd8, 0xff] then "jpg"
  else if sliceBytes bytes 0 4 = [0x89, 0x50, 0x4e, 0x47] then "png"
  else if sliceBytes bytes 0 4 = [0x52, 0x49, 0x46, 0x46] ∧
      sliceBytes bytes 8 4 = [0x57, 0x45, 0x42, 0x50] then "webp"
  else if sliceBytes bytes 4 4 = [0x66, 0x74, 0x79, 0x70] ∧
      (sliceBytes bytes 8 4).map lowerByte ∈ heifBrandBytes then "heic"
  else "unknown"

/-- `MAX_BYTES = 25 * 1024 * 1024` from the handler (25 MiB). -/
def MAX_BYTES : Nat := 25 * 1024 * 1024

/-- `ALLOWED_MIME` allow-list from the handler. -/
def ALLOWED_MIME : List String :=
  ["application/pdf", "image/jpeg", "image/png", "image/heic", "image/heif", "image/webp"]

/-- `ALLOWED_EXT` allow-list from the handler. -/
def ALLOWED_EXT : List String :=
  ["pdf", "jpg", "jpeg", "png", "heic", "heif", "webp"]

/-- ASCII lowercasing of a character, modelling JS `toLowerCase()` for the
purposes of the extension allow-list check (every allow-listed extension is
ASCII, and no non-ASCII character lowercases to a matching string). -/
def lowerChar (c : Char) : Char :=
  if 'A' ≤ c ∧ c ≤ 'Z' then Char.ofNat (c.toNat + 32) else c

/-- JS `s.toLowerCase()` restricted to the ASCII mapping (see `lowerChar`). -/
def toLowerAscii (s : String) : String := String.mk (s.data.map lowerChar)

/-- JS `s.split(".")` on the character list: splits at every dot, keeping
empty components, so "a.b" gives a and b, "a." gives a and an empty
component, and the empty string gives one empty component. -/
def splitOnDot : List Char → List (List Char)
  | [] => [[]]
  | c :: rest =>
    if c = '.' then [] :: splitOnDot rest
    else match splitOnDot rest with
      | [] => [[c]]
      | h :: t => (c :: h) :: t

/-- `safeName.includes(".") ? safeName.split(".").pop() : ""` from the
handler: the extension is the last dot-separated component of the
(lowercased) file name, or the empty string when the name has no dot. -/
def extFromName (safeName : String) : String :=
  if ('.' ∈ safeName.data) then String.mk ((splitOnDot safeName.data).getLastD []) else ""

/-- Embedding of the inline file-validation block of `processOneFile`
(identical in all revisions of the handler): reject empty buffers, then
oversized buffers, then sniff the first 32 bytes and require a recognized
kind together with an allow-listed declared MIME type or an allow-listed
file-name extension. Failures are the thrown error messages of the source. -/
def validateFile (buffer : List Nat) (contentType fileName : String) : Except String Unit :=
  if buffer.length = 0 then .error "Empty file"
  else if buffer.length > MAX_BYTES then .error "File too large (max 25 MB)"
  else if sniffKind (sliceBytes buffer 0 32) = "unknown" ∨
      ¬(contentType ∈ ALLOWED_MIME ∨
        extFromName (toLowerAscii (if fileName = "" then "upload" else fileName)) ∈ ALLOWED_EXT) then
    .error "Unsupported or suspicious file"
  else .ok ()

/-- C10: the file-kind sniffer is total and closed over its result set: for
every byte buffer, including the empty buffer and buffers shorter than 12
bytes, `sniffKind` returns exactly one of pdf, jpg, png, webp, heic or
unknown; slice reads past the end of a short buffer read nothing, so in
particular any buffer shorter than the shortest signature (3 bytes) falls
through to unknown. -/
theorem sniffKind_total (bytes : List Nat) :
    sniffKind bytes ∈ (["pdf", "jpg", "png", "webp", "heic", "unknown"] : List String) ∧
    (bytes.length < 3 → sniffKind bytes = "unknown") := by
  constructor
  · unfold sniffKind
    repeat' split
    all_goals simp
  · intro h
    have h1 : ¬ (sliceBytes bytes 0 4 = [0x25, 0x50, 0x44, 0x46]) := by
      intro he
      have := congrArg List.length he
      simp [sliceBytes] at this
      omega
    have h2 : ¬ (sliceBytes bytes 0 3 = [0xff, 0xd8, 0xff]) := by
      intro he
      have := congrArg List.length he
      simp [sliceBytes] at this
      omega
    have h3 : ¬ (sliceBytes bytes 0 4 = [0x89, 0x50, 0x4e, 0x47]) := by
      intro he
      have := congrArg List.length he
      simp [sliceBytes] at this
      omega
    have h4 : ¬ (sliceBytes bytes 0 4 = [0x52, 0x49, 0x46, 0x46]) := by
      intro he
      have := congrArg List.length he
      simp [sliceBytes] at this
      omega
    have h5 : ¬ (sliceBytes bytes 4 4 = [0x66, 0x74, 0x79, 0x70]) := by
      intro he
      have := congrArg List.length he
      simp [sliceBytes] at this
      omega
    simp [sniffKind, h1, h2, h3, h4, h5]

/-- C10 witness: the empty buffer evaluates to "unknown". -/
theorem sniffKind_total_witness : sniffKind [] = "unknown" :=
  (sniffKind_total []).2 (by decide)

/-- C7: the validator accepts a file exactly when the buffer is non-empty,
at most 25 MiB, the kind sniffed from the leading 32 bytes is not unknown,
and the declared MIME type or the file-name extension is allow-listed. In
particular a buffer starting with the %PDF signature and an allow-listed
extension is accepted despite a mismatched declared content type, and a
buffer with no recognizable signature is rejected even when its declared
MIME type is allow-listed. -/
theorem validateFile_ok_iff (buffer : List Nat) (contentType fileName : String) :
    validateFile buffer contentType fileName = .ok () ↔
      (buffer ≠ [] ∧ buffer.length ≤ MAX_BYTES ∧
       sniffKind (sliceBytes buffer 0 32) ≠ "unknown" ∧
       (contentType ∈ ALLOWED_MIME ∨
        extFromName (toLowerAscii (if fileName = "" then "upload" else fileName)) ∈ ALLOWED_EXT)) := by
  unfold validateFile
  constructor
  · intro hok
    by_cases h0 : buffer.length = 0
    · rw [if_pos h0] at hok
      exact absurd hok (by simp)
    rw [if_neg h0] at hok
    by_cases h1 : buffer.length > MAX_BYTES
    · rw [if_pos h1] at hok
      exact absurd hok (by simp)
    rw [if_neg h1] at hok
    by_cases h2 : sniffKind (sliceBytes buffer 0 32) = "unknown" ∨
        ¬(contentType ∈ ALLOWED_MIME ∨
          extFromName (toLowerAscii (if fileName = "" then "upload" else fileName)) ∈ ALLOWED_EXT)
    · rw [if_pos h2] at hok
      exact absurd hok (by simp)
    push_neg at h2
    exact ⟨fun hnil => h0 (by simp [hnil]), by omega, h2.1, h2.2⟩
  · rintro ⟨hne, hle, hkind, hallow⟩
    rw [if_neg (by simpa using hne), if_neg (by omega), if_neg (by tauto)]

/-- The chosen location produced by the location-selection block of
`processOneFile`: final coordinates, final accuracy and the presented
source tag. Coordinates and accuracy are `Option Rat`: `none` models a JS
value that is absent or not a finite number. -/
structure Chosen where
  finalLat : Option ℚ
  finalLon : Option ℚ
  finalAcc : Option ℚ
  presented_label : String
deriving DecidableEq, Repr

/-- Embedding of the location-selection block of `processOneFile` in the
newest handler revision (src/unnamed/part_006, the block commented
"prefer EXIF - GPS - IP"): the metadata (EXIF) candidate wins when both of
its coordinates are finite, then the client (browser GPS) candidate with
its reported accuracy, then the network (IP) candidate with accuracy
force-set to 50000; otherwise the chosen location is empty with tag
UNKNOWN. -/
def resolveLocationV2 (exifLat exifLon userLat userLon userAcc ipLat ipLon : Option ℚ) : Chosen :=
  if exifLat.isSome ∧ exifLon.isSome then
    { finalLat := exifLat, finalLon := exifLon, finalAcc := none, presented_label := "IMG" }
  else if userLat.isSome ∧ userLon.isSome then
    { finalLat := userLat, finalLon := userLon, finalAcc := userAcc, presented_label := "GPS" }
  else if ipLat.isSome ∧ ipLon.isSome then
    { finalLat := ipLat, finalLon := ipLon, finalAcc := some 50000, presented_label := "IP" }
  else
    { finalLat := none, finalLon := none, finalAcc := none, presented_label := "UNKNOWN" }

/-- Embedding of the location-selection block of `processOneFile` in the
older handler revisions (src/functions/api/upload.js lines 523-544 and
src/unnamed/part_004, the block commented "prefer GPS - EXIF IMG - IP"):
the client (browser GPS) candidate is tried first, then the metadata
(EXIF) candidate, then the network (IP) candidate. The accuracy backfill
`if (!Number.isFinite(numAcc)) numAcc = (locationSource === "IP") ? 50000 : null`
keeps a finite client-supplied accuracy in every branch and defaults the
accuracy to 50000 only for a network-chosen location with no finite
client accuracy; when nothing is chosen the final coordinates stay empty
with tag UNKNOWN (the client accuracy, if finite, is still carried). -/
def resolveLocationLegacy (exifLat exifLon userLat userLon userAcc ipLat ipLon : Option ℚ) : Chosen :=
  if userLat.isSome ∧ userLon.isSome then
    { finalLat := userLat, finalLon := userLon, finalAcc := userAcc, presented_label := "GPS" }
  else if exifLat.isSome ∧ exifLon.isSome then
    { finalLat := exifLat, finalLon := exifLon, finalAcc := userAcc, presented_label := "IMG" }
  else if ipLat.isSome ∧ ipLon.isSome then
    { finalLat := ipLat, finalLon := ipLon, finalAcc := some (userAcc.getD 50000),
      presented_label := "IP" }
  else
    { finalLat := none, finalLon := none, finalAcc := userAcc, presented_label := "UNKNOWN" }

/-- C1 counterexample: in the revision at src/functions/api/upload.js (and
likewise src/unnamed/part_004) the client candidate is tried before the
metadata candidate, so with all three candidates present the chosen source
tag is the client source GPS, not the metadata source IMG that the claim
requires. -/
theorem resolveLocationLegacy_all_present_not_metadata :
    (resolveLocationLegacy (some 1) (some 2) (some 3) (some 4) (some 15)
        (some 5) (some 6)).presented_label = "GPS" ∧ ("GPS" : String) ≠ "IMG" := by
  constructor
  · rfl
  · decide

/-- C1 amended: the newest handler revision (src/unnamed/part_006) follows
the claimed priority metadata over client over network, with the UNKNOWN
fallback exactly as claimed; the older revisions (src/functions/api/upload.js,
src/unnamed/part_004) instead try the client candidate first, so with all
three candidates present (and with client and network present) the chosen
tag is the client source, with metadata present but no client candidate it
is the metadata source, with only network it is the network source, and
with no candidate the chosen coordinates are empty with tag UNKNOWN. -/
theorem location_priority_amended (eLat eLon uLat uLon uAcc iLat iLon : Option ℚ) :
    ((eLat.isSome ∧ eLon.isSome) →
      (resolveLocationV2 eLat eLon uLat uLon uAcc iLat iLon).presented_label = "IMG") ∧
    (¬(eLat.isSome ∧ eLon.isSome) → (uLat.isSome ∧ uLon.isSome) →
      (resolveLocationV2 eLat eLon uLat uLon uAcc iLat iLon).presented_label = "GPS") ∧
    (¬(eLat.isSome ∧ eLon.isSome) → ¬(uLat.isSome ∧ uLon.isSome) → (iLat.isSome ∧ iLon.isSome) →
      (resolveLocationV2 eLat eLon uLat uLon uAcc iLat iLon).presented_label = "IP") ∧
    (¬(eLat.isSome ∧ eLon.isSome) → ¬(uLat.isSome ∧ uLon.isSome) → ¬(iLat.isSome ∧ iLon.isSome) →
      resolveLocationV2 eLat eLon uLat uLon uAcc iLat iLon
        = { finalLat := none, finalLon := none, finalAcc := none, presented_label := "UNKNOWN" }) ∧
    ((uLat.isSome ∧ uLon.isSome) →
      (resolveLocationLegacy eLat eLon uLat uLon uAcc iLat iLon).presented_label = "GPS") ∧
    ((eLat.isSome ∧ eLon.isSome) → ¬(uLat.isSome ∧ uLon.isSome) →
      (resolveLocationLegacy eLat eLon uLat uLon uAcc iLat iLon).presented_label = "IMG") ∧
    (¬(eLat.isSome ∧ eLon.isSome) → ¬(uLat.isSome ∧ uLon.isSome) → (iLat.isSome ∧ iLon.isSome) →
      (resolveLocationLegacy eLat eLon uLat uLon uAcc iLat iLon).presented_label = "IP") ∧
    (¬(eLat.isSome ∧ eLon.isSome) → ¬(uLat.isSome ∧ uLon.isSome) → ¬(iLat.isSome ∧ iLon.isSome) →
      (resolveLocationLegacy eLat eLon uLat uLon uAcc iLat iLon).finalLat = none ∧
      (resolveLocationLegacy eLat eLon uLat uLon uAcc iLat iLon).finalLon = none ∧
      (resolveLocationLegacy eLat eLon uLat uLon uAcc iLat iLon).presented_label = "UNKNOWN") := by
  refine ⟨?_, ?_, ?_, ?_, ?_, ?_, ?_, ?_⟩
  · intro h1
    unfold resolveLocationV2
    rw [if_pos h1]
  · intro h1 h2
    unfold resolveLocationV2
    rw [if_neg h1, if_pos h2]
  · intro h1 h2 h3
    unfold resolveLocationV2
    rw [if_neg h1, if_neg h2, if_pos h3]
  · intro h1 h2 h3
    unfold resolveLocationV2
    rw [if_neg h1, if_neg h2, if_neg h3]
  · intro h1
    unfold resolveLocationLegacy
    rw [if_pos h1]
  · intro h1 h2
    unfold resolveLocationLegacy
    rw [if_neg h2, if_pos h1]
  · intro h1 h2 h3
    unfold resolveLocationLegacy
    rw [if_neg h2, if_neg h1, if_pos h3]
  · intro h1 h2 h3
    unfold resolveLocationLegacy
    rw [if_neg h2, if_neg h1, if_neg h3]
    exact ⟨rfl, rfl, rfl⟩

/-- C1 amended witness: with all three candidates present the newest
revision chooses the metadata tag and the older revisions choose the
client tag; with no candidate the newest revision returns the empty
UNKNOWN record. -/
theorem location_priority_amended_witness :
    (resolveLocationV2 (some 1) (some 2) (some 3) (some 4) (some 15)
        (some 5) (some 6)).presented_label = "IMG" ∧
    (resolveLocationLegacy (some 1) (some 2) (some 3) (some 4) (some 15)
        (some 5) (some 6)).presented_label = "GPS" ∧
    resolveLocationV2 none none none none none none none
      = { finalLat := none, finalLon := none, finalAcc := none, presented_label := "UNKNOWN" } :=
  ⟨(location_priority_amended (some 1) (some 2) (some 3) (some 4) (some 15)
      (some 5) (some 6)).1 (by decide),
   (location_priority_amended (some 1) (some 2) (some 3) (some 4) (some 15)
      (some 5) (some 6)).2.2.2.2.1 (by decide),
   (location_priority_amended none none none none none none none).2.2.2.1
      (by decide) (by decide) (by decide)⟩

/-- C5 counterexample: in the revisions at src/functions/api/upload.js and
src/unnamed/part_004 a finite client-supplied accuracy is carried through
even when the network candidate is selected (metadata and client
coordinate candidates absent, network coordinates finite), so the chosen
accuracy is not force-set to 50000 there. -/
theorem resolveLocationLegacy_ip_accuracy_not_forced :
    (resolveLocationLegacy none none none none (some 10) (some 7) (some 8)).finalAcc = some 10 ∧
    some (10 : ℚ) ≠ some (50000 : ℚ) := by
  constructor
  · rfl
  · decide

/-- C5 amended: whenever the network candidate is the one selected
(metadata and client candidates absent, network coordinates finite), the
newest handler revision force-sets the chosen accuracy to exactly 50000;
the older revisions set 50000 only as a default when no finite
client-supplied accuracy exists, and otherwise carry the client accuracy
through. -/
theorem ip_accuracy_amended (eLat eLon uLat uLon uAcc iLat iLon : Option ℚ) :
    (¬(eLat.isSome ∧ eLon.isSome) → ¬(uLat.isSome ∧ uLon.isSome) → (iLat.isSome ∧ iLon.isSome) →
      (resolveLocationV2 eLat eLon uLat uLon uAcc iLat iLon).finalAcc = some 50000 ∧
      (resolveLocationLegacy eLat eLon uLat uLon uAcc iLat iLon).finalAcc
        = some (uAcc.getD 50000)) := by
  intro h1 h2 h3
  constructor
  · unfold resolveLocationV2
    rw [if_neg h1, if_neg h2, if_pos h3]
  · unfold resolveLocationLegacy
    rw [if_neg h2, if_neg h1, if_pos h3]

/-- C5 amended witness: with only the network candidate present and no
client accuracy, both revisions produce accuracy 50000. -/
theorem ip_accuracy_amended_witness :
    (resolveLocationV2 none none none none none (some 7) (some 8)).finalAcc = some 50000 ∧
    (resolveLocationLegacy none none none none none (some 7) (some 8)).finalAcc
      = some ((none : Option ℚ).getD 50000) :=
  ip_accuracy_amended none none none none none (some 7) (some 8)
    (by decide) (by decide) (by decide)

/-- C8: a location candidate with exactly one finite coordinate is treated
identically to a completely absent candidate, in every candidate slot and
in both handler revisions: replacing the partial candidate by a fully
absent one yields the very same chosen location, so the partial candidate
is never selected and never contributes its single coordinate. -/
theorem partial_candidate_absent (eLat eLon uLat uLon uAcc iLat iLon : Option ℚ) :
    (eLon = none →
      resolveLocationV2 eLat eLon uLat uLon uAcc iLat iLon
        = resolveLocationV2 none none uLat uLon uAcc iLat iLon ∧
      resolveLocationLegacy eLat eLon uLat uLon uAcc iLat iLon
        = resolveLocationLegacy none none uLat uLon uAcc iLat iLon) ∧
    (eLat = none →
      resolveLocationV2 eLat eLon uLat uLon uAcc iLat iLon
        = resolveLocationV2 none none uLat uLon uAcc iLat iLon ∧
      resolveLocationLegacy eLat eLon uLat uLon uAcc iLat iLon
        = resolveLocationLegacy none none uLat uLon uAcc iLat iLon) ∧
    (uLon = none →
      resolveLocationV2 eLat eLon uLat uLon uAcc iLat iLon
        = resolveLocationV2 eLat eLon none none uAcc iLat iLon ∧
      resolveLocationLegacy eLat eLon uLat uLon uAcc iLat iLon
        = resolveLocationLegacy eLat eLon none none uAcc iLat iLon) ∧
    (uLat = none →
      resolveLocationV2 eLat eLon uLat uLon uAcc iLat iLon
        = resolveLocationV2 eLat eLon none none uAcc iLat iLon ∧
      resolveLocationLegacy eLat eLon uLat uLon uAcc iLat iLon
        = resolveLocationLegacy eLat eLon none none uAcc iLat iLon) ∧
    (iLon = none →
      resolveLocationV2 eLat eLon uLat uLon uAcc iLat iLon
        = resolveLocationV2 eLat eLon uLat uLon uAcc none none ∧
      resolveLocationLegacy eLat eLon uLat uLon uAcc iLat iLon
        = resolveLocationLegacy eLat eLon uLat uLon uAcc none none) ∧
    (iLat = none →
      resolveLocationV2 eLat eLon uLat uLon uAcc iLat iLon
        = resolveLocationV2 eLat eLon uLat uLon uAcc none none ∧
      resolveLocationLegacy eLat eLon uLat uLon uAcc iLat iLon
        = resolveLocationLegacy eLat eLon uLat uLon uAcc none none) := by
  refine ⟨?_, ?_, ?_, ?_, ?_, ?_⟩ <;> rintro rfl <;>
    constructor <;> simp [resolveLocationV2, resolveLocationLegacy]

/-- C8 witness: a metadata candidate with only a latitude behaves exactly
like an absent metadata candidate at a concrete input. -/
theorem partial_candidate_absent_witness :
    resolveLocationV2 (some 1) none (some 3) (some 4) none (some 5) (some 6)
      = resolveLocationV2 none none (some 3) (some 4) none (some 5) (some 6) ∧
    resolveLocationLegacy (some 1) none (some 3) (some 4) none (some 5) (some 6)
      = resolveLocationLegacy none none (some 3) (some 4) none (some 5) (some 6) :=
  (partial_candidate_absent (some 1) none (some 3) (some 4) none (some 5) (some 6)).1 rfl

/-- One row of the D1 `transactions` table as bound by `upsertTransaction`
in src/functions/api/upload.js (the newest revision binds the same columns
minus `presented_source`): every column except the preserved `created_at`.
SQLite values are modelled as optional strings except the numeric columns
and the primary key. -/
structure TxData where
  podfy_id : String
  slug : Option String
  upload_date : Option String
  upload_time : Option String
  reference : Option String
  presented_loc_url : Option String
  presented_label : Option String
  presented_source : Option String
  picture_url : Option String
  original_filename : Option String
  uploaded_file_type : Option String
  file_size_bytes : Nat
  storage_bucket : Option String
  storage_key : Option String
  driver_copy_sent : Nat
  process_status : Option String
  invoice_group_id : Option String
  subscription_code : Option String
  uploader_user_id : Option String
  user_agent : Option String
  app_version : Option String
  meta_json : Option String
  file_checksum : Option String
  delivery_issue_code : Option String
  delivery_issue_notes : Option String
  location_raw_json : Option String
deriving DecidableEq, Repr

/-- A stored `transactions` row: the preserved `created_at` column plus
all the columns overwritten by every upsert. -/
structure TxRow where
  created_at : String
  data : TxData
deriving DecidableEq, Repr

/-- The `transactions` table, keyed by its primary key `podfy_id`. -/
def Db : Type := String → Option TxRow

/-- Embedding of `upsertTransaction`: the SQL
`INSERT OR REPLACE INTO transactions (...) VALUES (..., COALESCE((SELECT
created_at FROM transactions WHERE podfy_id = ?), strftime(..., 'now')), ...)`
replaces the whole row keyed by `podfy_id`, with `created_at` taken from
the pre-existing row when there is one and stamped with the current time
`now` otherwise. -/
def upsertTransaction (db : Db) (row : TxData) (now : String) : Db :=
  fun k =>
    if k = row.podfy_id then
      some { created_at := match db row.podfy_id with
               | some old => old.created_at
               | none => now,
             data := row }
    else db k

/-- Embedding of the finalize step of `processOneFile` (identical SQL in
all revisions): `UPDATE transactions SET process_status = CASE WHEN ?1
THEN 'delivered' ELSE process_status END WHERE podfy_id = ?2` - the row
keyed by `pid`, when it exists, gets status `delivered` when the gate
boolean is true and keeps its status otherwise; no other row or column is
touched. -/
def finalizeStatus (db : Db) (should : Bool) (pid : String) : Db :=
  fun k =>
    match db k with
    | some row =>
      if k = pid then
        some { row with data := { row.data with
          process_status := if should then some "delivered" else row.data.process_status } }
      else some row
    | none => none

/-- C3: upserting the same `podfy_id` twice stores the second payload in
every column while `created_at` keeps the stamp of the first call (the
first call stamps `t1` when no row existed); and, in general, an upsert
over any existing row never changes its `created_at`. -/
theorem upsertTransaction_idempotent_createdAt (db : Db) (r1 r2 : TxData) (t1 t2 : String)
    (hkey : r2.podfy_id = r1.podfy_id) :
    (db r1.podfy_id = none →
      upsertTransaction (upsertTransaction db r1 t1) r2 t2 r2.podfy_id
        = some { created_at := t1, data := r2 }) ∧
    (upsertTransaction (upsertTransaction db r1 t1) r2 t2 r2.podfy_id).map TxRow.data
      = some r2 ∧
    (∀ (db' : Db) (r : TxData) (t : String) (old : TxRow), db' r.podfy_id = some old →
      (upsertTransaction db' r t r.podfy_id).map TxRow.created_at = some old.created_at) := by
  refine ⟨?_, ?_, ?_⟩
  · intro hnone
    simp [upsertTransaction, hkey, hnone]
  · simp [upsertTransaction, hkey]
  · intro db' r t old hold
    simp [upsertTransaction, hold]

/-- A concrete transactions payload used by witnesses: key P1, first call. -/
def sampleTx1 : TxData where
  podfy_id := "P1"
  slug := some "acme"
  upload_date := none
  upload_time := none
  reference := none
  presented_loc_url := none
  presented_label := none
  presented_source := none
  picture_url := none
  original_filename := none
  uploaded_file_type := none
  file_size_bytes := 4
  storage_bucket := none
  storage_key := none
  driver_copy_sent := 0
  process_status := some "received"
  invoice_group_id := none
  subscription_code := none
  uploader_user_id := none
  user_agent := none
  app_version := none
  meta_json := none
  file_checksum := none
  delivery_issue_code := none
  delivery_issue_notes := none
  location_raw_json := none

/-- A concrete transactions payload used by witnesses: key P1, second call
with different column values. -/
def sampleTx2 : TxData :=
  { sampleTx1 with slug := some "other", file_size_bytes := 9 }

/-- A concrete one-row table whose P1 row has status delivered. -/
def sampleDeliveredDb : Db :=
  fun k => if k = "P1" then
    some { created_at := "t0", data := { sampleTx1 with process_status := some "delivered" } }
  else none

/-- C3 witness: two concrete upserts on the key P1 over the empty table
keep the first stamp t1 and store the second payload. -/
theorem upsertTransaction_idempotent_createdAt_witness :
    upsertTransaction (upsertTransaction (fun _ => none) sampleTx1 "t1") sampleTx2 "t2" "P1"
      = some { created_at := "t1", data := sampleTx2 } :=
  (upsertTransaction_idempotent_createdAt (fun _ => none) sampleTx1 sampleTx2 "t1" "t2" rfl).1 rfl

/-- C4: finalize is monotonic: with gate false it is the identity on the
whole table (so a stored `delivered` status, like any other status, is
left unchanged), and in general the status of any row either stays what
it was or becomes `delivered` - finalize never reverts a status. -/
theorem finalizeStatus_monotonic (db : Db) (should : Bool) (pid k : String) :
    (should = false → finalizeStatus db should pid k = db k) ∧
    ((finalizeStatus db should pid k).map (fun r => r.data.process_status)
        = (db k).map (fun r => r.data.process_status) ∨
     (finalizeStatus db should pid k).map (fun r => r.data.process_status)
        = some (some "delivered")) := by
  constructor
  · rintro rfl
    unfold finalizeStatus
    cases hdb : db k with
    | none => rfl
    | some row =>
      by_cases hk : k = pid
      · simp [hk]
      · simp [hk]
  · unfold finalizeStatus
    cases hdb : db k with
    | none => left; rfl
    | some row =>
      by_cases hk : k = pid
      · cases should with
        | false => left; simp [hk]
        | true => right; simp [hk]
      · left; simp [hk]

/-- C4 witness: finalize with gate false on a concrete one-row table whose
row is already delivered leaves the lookup unchanged. -/
theorem finalizeStatus_monotonic_witness :
    finalizeStatus sampleDeliveredDb false "P1" "P1" = sampleDeliveredDb "P1" :=
  (finalizeStatus_monotonic sampleDeliveredDb false "P1" "P1").1 rfl

/-- okStaff in the newest handler revision (src/unnamed/part_006): the
staff send is attempted only when mail notification is enabled for the
slug and the recipient list is non-empty
(`if (mailNotificationEnabled && mailToList.length)`); otherwise okStaff
keeps its initial false. `staffSendOk` is the boolean returned by the
external mail collaborator when the send is attempted. -/
def okStaffV2 (mailNotificationEnabled : Bool) (mailToList : List String)
    (staffSendOk : Bool) : Bool :=
  if mailNotificationEnabled && !mailToList.isEmpty then staffSendOk else false

/-- `const staffSatisfied = (!mailNotificationEnabled || !mailToList.length)
? true : okStaff` from the newest revision: staff mail is satisfied when
disabled or with no recipients, else when the send succeeded. -/
def staffSatisfied (mailNotificationEnabled : Bool) (mailToList : List String)
    (okStaff : Bool) : Bool :=
  if !mailNotificationEnabled || mailToList.isEmpty then true else okStaff

/-- The finalize gate of the newest revision:
`!driverIssue && staffSatisfied && (emailCopy ? okUser : true)`. -/
def shouldBeDeliveredV2 (driverIssue mailNotificationEnabled : Bool) (mailToList : List String)
    (staffSendOk : Bool) (emailCopy : Option String) (okUser : Bool) : Bool :=
  !driverIssue &&
    staffSatisfied mailNotificationEnabled mailToList
      (okStaffV2 mailNotificationEnabled mailToList staffSendOk) &&
    (if emailCopy.isSome then okUser else true)

/-- okStaff in the older revision (src/functions/api/upload.js): attempted
only when the recipient list is non-empty (`if (mailToList.length)`),
otherwise it keeps its initial false; there is no enable flag. -/
def okStaffLegacy (mailToList : List String) (staffSendOk : Bool) : Bool :=
  if !mailToList.isEmpty then staffSendOk else false

/-- The finalize gate of the older revision:
`!driverIssue && okStaff && (emailCopy ? okUser : true)` - it requires the
staff send to have been attempted and succeeded outright. -/
def shouldBeDeliveredLegacy (driverIssue : Bool) (mailToList : List String)
    (staffSendOk : Bool) (emailCopy : Option String) (okUser : Bool) : Bool :=
  !driverIssue && okStaffLegacy mailToList staffSendOk &&
    (if emailCopy.isSome then okUser else true)

/-- Modelled from the spec wording of the claim, for comparison with the
code: delivery issue not flagged AND (no staff notification was
required/attempted OR the staff send succeeded) AND (no uploader copy
requested OR the uploader send succeeded). `staffRequired` stands for "a
staff notification was required/attempted". -/
def specDeliveredGate (driverIssue staffRequired staffSendOk : Bool)
    (emailCopy : Option String) (okUser : Bool) : Bool :=
  !driverIssue && (!staffRequired || staffSendOk) && (!emailCopy.isSome || okUser)

/-- The stored process status of the row keyed by `pid`. -/
def statusAt (db : Db) (pid : String) : Option (Option String) :=
  (db pid).map (fun r => r.data.process_status)

/-- The newest-revision gate agrees with the spec wording, reading "staff
notification required/attempted" as: notification enabled and recipient
list non-empty. -/
theorem shouldBeDeliveredV2_eq_specGate (d e : Bool) (t : List String) (s : Bool)
    (c : Option String) (u : Bool) :
    shouldBeDeliveredV2 d e t s c u = specDeliveredGate d (e && !t.isEmpty) s c u := by
  cases d <;> cases e <;> cases ht : t.isEmpty <;> cases s <;> cases u <;>
    simp [shouldBeDeliveredV2, specDeliveredGate, staffSatisfied, okStaffV2, ht]

/-- C2 counterexample: in the revision at src/functions/api/upload.js,
with no delivery issue, no uploader copy requested and an empty staff
recipient list (so no staff notification is required or attempted - the
spec gate is satisfied), finalize leaves a received row received instead
of marking it delivered, because that revision requires okStaff outright. -/
theorem finalize_gate_legacy_counterexample :
    specDeliveredGate false false false none false = true ∧
    statusAt (finalizeStatus
        (fun k => if k = "P1" then some { created_at := "t0", data := sampleTx1 } else none)
        (shouldBeDeliveredLegacy false [] false none false) "P1") "P1"
      = some (some "received") ∧
    some (some "received") ≠ some (some "delivered") := by
  refine ⟨rfl, ?_, by decide⟩
  simp [statusAt, finalizeStatus, shouldBeDeliveredLegacy, okStaffLegacy, sampleTx1]

/-- C2 amended: finalize sets the stored status of an existing row to
delivered exactly when its gate holds and otherwise leaves the stored
status unchanged; in the newest handler revision the gate is precisely the
claimed one - no delivery issue flagged AND (staff notification not
required/attempted, i.e. disabled or no recipients, OR the staff send
succeeded) AND (no uploader copy requested OR the uploader send
succeeded) - while in the older revision the staff clause instead requires
the staff send to have been attempted on a non-empty recipient list and
succeeded, so a record whose slug has no staff recipients is never marked
delivered there. -/
theorem finalize_delivery_gate_amended (driverIssue enabled : Bool) (toList : List String)
    (staffSendOk : Bool) (emailCopy : Option String) (okUser : Bool)
    (db : Db) (pid : String) (row : TxRow) (hrow : db pid = some row) :
    statusAt (finalizeStatus db
        (shouldBeDeliveredV2 driverIssue enabled toList staffSendOk emailCopy okUser) pid) pid
      = some (if specDeliveredGate driverIssue (enabled && !toList.isEmpty) staffSendOk
            emailCopy okUser
          then some "delivered" else row.data.process_status) ∧
    statusAt (finalizeStatus db
        (shouldBeDeliveredLegacy driverIssue toList staffSendOk emailCopy okUser) pid) pid
      = some (if (!driverIssue && (!toList.isEmpty && staffSendOk) &&
            (!emailCopy.isSome || okUser))
          then some "delivered" else row.data.process_status) := by
  constructor
  · rw [shouldBeDeliveredV2_eq_specGate]
    simp [statusAt, finalizeStatus, hrow]
  · have hgate : shouldBeDeliveredLegacy driverIssue toList staffSendOk emailCopy okUser
        = (!driverIssue && (!toList.isEmpty && staffSendOk) && (!emailCopy.isSome || okUser)) := by
      cases driverIssue <;> cases ht : toList.isEmpty <;> cases staffSendOk <;> cases okUser <;>
        simp [shouldBeDeliveredLegacy, okStaffLegacy, ht]
    rw [hgate]
    simp [statusAt, finalizeStatus, hrow]

/-- C2 amended witness: on a concrete received row, with staff mail
enabled, one recipient and a successful send, no issue and no uploader
copy, both revisions finalize the row to delivered. -/
theorem finalize_delivery_gate_amended_witness :
    statusAt (finalizeStatus
        (fun k => if k = "P1" then some { created_at := "t0", data := sampleTx1 } else none)
        (shouldBeDeliveredV2 false true ["staff@acme.example"] true none false) "P1") "P1"
      = some (if specDeliveredGate false (true && !(["staff@acme.example"] : List String).isEmpty)
            true none false
          then some "delivered" else sampleTx1.process_status) ∧
    statusAt (finalizeStatus
        (fun k => if k = "P1" then some { created_at := "t0", data := sampleTx1 } else none)
        (shouldBeDeliveredLegacy false ["staff@acme.example"] true none false) "P1") "P1"
      = some (if (!false && (!(["staff@acme.example"] : List String).isEmpty && true) &&
            (!(none : Option String).isSome || false))
          then some "delivered" else sampleTx1.process_status) :=
  finalize_delivery_gate_amended false true ["staff@acme.example"] true none false
    (fun k => if k = "P1" then some { created_at := "t0", data := sampleTx1 } else none)
    "P1" { created_at := "t0", data := sampleTx1 } rfl

/-- Decimal digit list of a natural number, structurally recursive; proved
below to agree with the fuel-based printer used by `toString`. -/
def decDigits (n : Nat) : List Char :=
  if _h : n < 10 then [Nat.digitChar n]
  else decDigits (n / 10) ++ [Nat.digitChar (n % 10)]
termination_by n
decreasing_by
  exact Nat.div_lt_self (by omega) (by omega)

/-- Numeric value of a decimal digit character. -/
def decCharVal (c : Char) : Nat := c.toNat - 48

/-- Left fold reading a digit list back into a number. -/
def decListVal (l : List Char) : Nat := l.foldl (fun a c => 10 * a + decCharVal c) 0

theorem decCharVal_digitChar (d : Nat) (h : d < 10) : decCharVal (Nat.digitChar d) = d := by
  interval_cases d <;> rfl

theorem toDigitsCore_eq_decDigits (fuel : Nat) :
    ∀ (n : Nat) (ds : List Char), 0 < fuel → n < 10 ^ fuel →
      Nat.toDigitsCore 10 fuel n ds = decDigits n ++ ds := by
  induction fuel with
  | zero => intro n ds hpos; omega
  | succ f ih =>
    intro n ds _ hlt
    by_cases hn : n < 10
    · have hz : n / 10 = 0 := Nat.div_eq_of_lt hn
      have hm : n % 10 = n := Nat.mod_eq_of_lt hn
      simp only [Nat.toDigitsCore, hz, if_pos rfl, hm]
      rw [decDigits, dif_pos hn]
      rfl
    · have hz : ¬ (n / 10 = 0) := by
        intro hzz
        have := Nat.div_eq_of_lt (show n < 10 by omega)
        omega
      have hfpos : 0 < f := by
        by_contra hf0
        have : f = 0 := by omega
        subst this
        simp at hlt
        omega
      have hdiv : n / 10 < 10 ^ f := by
        apply (Nat.div_lt_iff_lt_mul (by omega : 0 < 10)).2
        calc n < 10 ^ (f + 1) := hlt
          _ = 10 ^ f * 10 := by rw [pow_succ]
      simp only [Nat.toDigitsCore, if_neg hz]
      rw [ih (n / 10) (Nat.digitChar (n % 10) :: ds) hfpos hdiv]
      conv_rhs => rw [decDigits]
      rw [dif_neg hn]
      simp

theorem toDigits_eq_decDigits (n : Nat) : Nat.toDigits 10 n = decDigits n := by
  have h1 : n < 10 ^ (n + 1) := by
    calc n < 10 ^ n := Nat.lt_pow_self (by omega) n
      _ ≤ 10 ^ (n + 1) := Nat.pow_le_pow_right (by omega) (by omega)
  have := toDigitsCore_eq_decDigits (n + 1) n [] (by omega) h1
  simpa [Nat.toDigits] using this

theorem foldl_decDigits (n : Nat) :
    ∀ a : Nat, (decDigits n).foldl (fun a c => 10 * a + decCharVal c) a
      = a * 10 ^ (decDigits n).length + n := by
  induction n using Nat.strong_induction_on with
  | _ n ih =>
    intro a
    by_cases hn : n < 10
    · rw [decDigits, dif_pos hn]
      simp [decCharVal_digitChar n hn]
      ring
    · rw [decDigits, dif_neg hn]
      rw [List.foldl_append]
      rw [ih (n / 10) (Nat.div_lt_self (by omega) (by omega)) a]
      simp only [List.foldl_cons, List.foldl_nil, List.length_append, List.length_singleton]
      rw [decCharVal_digitChar (n % 10) (Nat.mod_lt n (by omega))]
      have : 10 * (a * 10 ^ (decDigits (n / 10)).length + n / 10) + n % 10
          = a * (10 ^ (decDigits (n / 10)).length * 10) + (10 * (n / 10) + n % 10) := by ring
      rw [this, Nat.div_add_mod]
      rw [pow_succ]

theorem decListVal_decDigits (n : Nat) : decListVal (decDigits n) = n := by
  have := foldl_decDigits n 0
  simpa [decListVal] using this

/-- Decimal printing of naturals (JS template interpolation of a number)
is injective. -/
theorem natToString_injective {m n : Nat} (h : toString m = toString n) : m = n := by
  have hrepr : Nat.repr m = Nat.repr n := h
  have hds : (Nat.toDigits 10 m).asString = (Nat.toDigits 10 n).asString := hrepr
  have hlist : Nat.toDigits 10 m = Nat.toDigits 10 n := congrArg String.data hds
  rw [toDigits_eq_decDigits, toDigits_eq_decDigits] at hlist
  have := congrArg decListVal hlist
  rwa [decListVal_decDigits, decListVal_decDigits] at this

/-- Embedding of `makeFilePodfyId` from the handler (identical in the two
multi-file revisions): with at most one file in the batch the per-file id
is the group id itself, otherwise it is the group id, a dash and the
1-based file index. -/
def makeFilePodfyId (fileCount : Nat) (groupPodfyId : String) (idx : Nat) : String :=
  if fileCount ≤ 1 then groupPodfyId else groupPodfyId ++ "-" ++ toString (idx + 1)

/-- The per-file id map is injective for a fixed group id. -/
theorem makeFilePodfyId_suffix_injective (g : String) :
    Function.Injective (fun i => g ++ "-" ++ toString (i + 1)) := by
  intro i j h
  simp only at h
  have hdata := congrArg String.data h
  rw [String.data_append, String.data_append, String.data_append, String.data_append] at hdata
  rw [List.append_assoc, List.append_assoc] at hdata
  have h2 := List.append_cancel_left hdata
  have h3 := List.append_cancel_left h2
  have h4 : toString (i + 1) = toString (j + 1) := String.ext h3
  have := natToString_injective h4
  omega

/-- C9: in a batch of N files sharing group id g, with N greater than 1
the per-file record identifiers are exactly the strings g-1 through g-N
(1-based index suffix) and are pairwise distinct; with N equal to 1 the
single record identifier is g itself. -/
theorem makeFilePodfyId_batch (N : Nat) (g : String) :
    (1 < N →
      (List.range N).map (makeFilePodfyId N g)
        = (List.range N).map (fun i => g ++ "-" ++ toString (i + 1)) ∧
      ((List.range N).map (makeFilePodfyId N g)).Nodup) ∧
    (N = 1 → makeFilePodfyId N g 0 = g) := by
  constructor
  · intro hN
    have hfun : makeFilePodfyId N g = fun i => g ++ "-" ++ toString (i + 1) := by
      funext i
      exact if_neg (by omega)
    rw [hfun]
    exact ⟨rfl, (List.nodup_range N).map (makeFilePodfyId_suffix_injective g)⟩
  · intro hN
    subst hN
    exact if_pos (by omega)

/-- C9 witness: a batch of three files with group id G7 yields exactly
the distinct ids G7-1, G7-2, G7-3, and a single-file batch reuses G7. -/
theorem makeFilePodfyId_batch_witness :
    (List.range 3).map (makeFilePodfyId 3 "G7") = ["G7-1", "G7-2", "G7-3"] ∧
    ((List.range 3).map (makeFilePodfyId 3 "G7")).Nodup ∧
    makeFilePodfyId 1 "G7" 0 = "G7" :=
  ⟨rfl, ((makeFilePodfyId_batch 3 "G7").1 (by omega)).2,
    (makeFilePodfyId_batch 1 "G7").2 rfl⟩

/-- One incoming file of a multi-file submission: declared name, declared
content type and raw bytes. -/
structure BatchFile where
  name : String
  contentType : String
  bytes : List Nat
deriving DecidableEq, Repr

/-- The transactions payload `processOneFile` upserts for one stored file,
restricted to the columns derived from the file itself; columns filled
from external collaborators (storage key, checksum, resolved location,
branding) are left empty here - the batch claim observes only whether a
row keyed by the per-file id exists. -/
def mkTxData (pid : String) (f : BatchFile) : TxData where
  podfy_id := pid
  slug := none
  upload_date := none
  upload_time := none
  reference := none
  presented_loc_url := none
  presented_label := none
  presented_source := none
  picture_url := none
  original_filename := some f.name
  uploaded_file_type := some f.contentType
  file_size_bytes := f.bytes.length
  storage_bucket := none
  storage_key := none
  driver_copy_sent := 0
  process_status := some "received"
  invoice_group_id := none
  subscription_code := none
  uploader_user_id := none
  user_agent := none
  app_version := none
  meta_json := none
  file_checksum := none
  delivery_issue_code := none
  delivery_issue_notes := none
  location_raw_json := none

/-- The per-file pipeline of `processOneFile` at the granularity the batch
claim needs: derive the per-file id, validate the file - a validation
failure is the thrown error and aborts before any transaction row is
created - and otherwise create (upsert) the transaction row. Storage and
mail side effects, which happen between these steps in the source, touch
no transaction state and are elided. -/
def processOneFileModel (fileCount : Nat) (g now : String) (db : Db) (idx : Nat)
    (f : BatchFile) : Except String (Db × String) :=
  match validateFile f.bytes f.contentType f.name with
  | .error e => .error e
  | .ok _ =>
    .ok (upsertTransaction db (mkTxData (makeFilePodfyId fileCount g idx) f) now,
         makeFilePodfyId fileCount g idx)

/-- The batch driver loop of `onRequestPost`:
`for (let i = 0; i < incomingFiles.length; i++) results.push(await
processOneFile(incomingFiles[i], i));` inside the handler-wide try/catch.
A thrown error escapes the loop (later files are not reached), the
transaction state reached so far persists, and the catch turns the whole
request into one failure response. -/
def runBatchAux (fileCount : Nat) (g now : String) :
    List BatchFile → Nat → Db → List String → Db × Except String (List String)
  | [], _, db, acc => (db, .ok acc.reverse)
  | f :: rest, idx, db, acc =>
    match processOneFileModel fileCount g now db idx f with
    | .error e => (db, .error e)
    | .ok (db2, pid) => runBatchAux fileCount g now rest (idx + 1) db2 (pid :: acc)

/-- Running a whole submission: every file of the list, shared group id,
starting from table `db`. -/
def runBatch (files : List BatchFile) (g now : String) (db : Db) :
    Db × Except String (List String) :=
  runBatchAux files.length g now files 0 db []

/-- A well-formed PDF file used in batch scenarios. -/
def pdfFile1 : BatchFile where
  name := "a.pdf"
  contentType := "application/pdf"
  bytes := [0x25, 0x50, 0x44, 0x46]

/-- A file with an allow-listed declared MIME type but no recognizable
signature: validation rejects it. -/
def badFile : BatchFile where
  name := "evil.bin"
  contentType := "application/pdf"
  bytes := [0x00]

/-- A second well-formed PDF file used in batch scenarios. -/
def pdfFile2 : BatchFile where
  name := "b.pdf"
  contentType := "application/pdf"
  bytes := [0x25, 0x50, 0x44, 0x46]

/-- C6 counterexample: in the batch pdfFile1, badFile, pdfFile2 the middle
file fails validation; the first file was fully processed (its row G1-1
exists) and no row was created for the failing file, but contrary to the
claim the third file is not processed - no row G1-3 is ever created - and
the whole request surfaces one error instead of a rejection for the
failing file only. -/
theorem batch_abort_counterexample :
    (runBatch [pdfFile1, badFile, pdfFile2] "G1" "t0" (fun _ => none)).2
      = .error "Unsupported or suspicious file" ∧
    ((runBatch [pdfFile1, badFile, pdfFile2] "G1" "t0" (fun _ => none)).1 "G1-1").isSome
      = true ∧
    (runBatch [pdfFile1, badFile, pdfFile2] "G1" "t0" (fun _ => none)).1 "G1-3" = none ∧
    (runBatch [pdfFile1, badFile, pdfFile2] "G1" "t0" (fun _ => none)).1 "G1-2" = none := by
  refine ⟨rfl, rfl, rfl, rfl⟩

/-- C6 amended: when validation rejects a file in a batch, that file's
pipeline aborts before any transaction record is created for it and the
files before it remain fully processed - the final table is exactly the
table produced by the prefix alone - but the error propagates out of the
per-file loop: the files after the failing one are never processed and
the request surfaces the single thrown error rather than a per-file
rejection. -/
theorem batch_abort_amended (fileCount : Nat) (g now : String) (f : BatchFile) (e : String)
    (hbad : validateFile f.bytes f.contentType f.name = .error e) :
    ∀ (pre : List BatchFile) (idx : Nat) (db : Db) (acc : List String)
      (post : List BatchFile),
      (∀ x ∈ pre, validateFile x.bytes x.contentType x.name = .ok ()) →
      runBatchAux fileCount g now (pre ++ f :: post) idx db acc
        = ((runBatchAux fileCount g now pre idx db acc).1, .error e) := by
  intro pre
  induction pre with
  | nil =>
    intro idx db acc post _
    simp [runBatchAux, processOneFileModel, hbad]
  | cons x xs ih =>
    intro idx db acc post hok
    have hx : validateFile x.bytes x.contentType x.name = .ok () := hok x (by simp)
    simp only [List.cons_append, runBatchAux, processOneFileModel, hx]
    exact ih _ _ _ _ (fun y hy => hok y (by simp [hy]))

/-- C6 amended witness: the concrete three-file batch stops at the bad
middle file with the table of the one-file prefix and the single error. -/
theorem batch_abort_amended_witness :
    runBatchAux 3 "G1" "t0" ([pdfFile1] ++ badFile :: [pdfFile2]) 0 (fun _ => none) []
      = ((runBatchAux 3 "G1" "t0" [pdfFile1] 0 (fun _ => none) []).1,
         .error "Unsupported or suspicious file") :=
  batch_abort_amended 3 "G1" "t0" badFile "Unsupported or suspicious file" rfl
    [pdfFile1] 0 (fun _ => none) [] [pdfFile2]
    (by
      intro x hx
      rw [List.mem_singleton] at hx
      subst hx
      rfl)

/-- C7 witness: a four-byte %PDF buffer declared as octet-stream but named
scan.pdf is accepted through the extension allow-list. -/
theorem validateFile_ok_iff_witness :
    validateFile [0x25, 0x50, 0x44, 0x46] "application/octet-stream" "scan.pdf"
      = .ok () :=
  (validateFile_ok_iff [0x25, 0x50, 0x44, 0x46] "application/octet-stream" "scan.pdf").2
    ⟨by decide, by decide, by decide, Or.inr (by decide)⟩
